import Mathlib

/-!
Verification of the Taskify backend core (validation, authentication,
task CRUD) against its natural-language specification.

Python strings are embedded as lists of Unicode code points (`List Nat`);
the validators, routers and token helpers below are direct translations of
`app/models/schemas.py`, `app/core/auth.py`, `app/routers/auth.py` and
`app/routers/tasks.py`.  Only the ASCII fragment of Python's case folding
and whitespace handling is modelled; every input appearing in the claims
is ASCII.
-/

deriving instance DecidableEq for Except

namespace Taskify

/-- A Python string, embedded as its list of code points. -/
abbrev Str := List Nat

/-- Code points of a Lean string literal, for writing concrete inputs. -/
def strOf (s : String) : Str := s.toList.map Char.toNat

/-- ASCII fragment of Python whitespace (as stripped by `str.strip()`). -/
def isSpace (n : Nat) : Bool := n == 32 || (9 ≤ n && n ≤ 13)

/-- ASCII uppercase letter, the class `[A-Z]`. -/
def isUpperCode (n : Nat) : Bool := 65 ≤ n && n ≤ 90

/-- ASCII lowercase letter, the class `[a-z]`. -/
def isLowerCode (n : Nat) : Bool := 97 ≤ n && n ≤ 122

/-- ASCII digit, the class `[0-9]` (also `\d` on ASCII input). -/
def isDigitCode (n : Nat) : Bool := 48 ≤ n && n ≤ 57

/-- ASCII letter, the class `[a-zA-Z]`. -/
def isAlphaCode (n : Nat) : Bool := isUpperCode n || isLowerCode n

/-- ASCII alphanumeric, the class `[a-zA-Z0-9]`. -/
def isAlnumCode (n : Nat) : Bool := isAlphaCode n || isDigitCode n

/-- Case folding of one code point (`str.lower()` on ASCII). -/
def lowerCode (n : Nat) : Nat := if isUpperCode n then n + 32 else n

/-- Python `s.lower()`. -/
def pyLower (s : Str) : Str := s.map lowerCode

/-- Python `s.strip()`: drop leading and trailing whitespace. -/
def pyStrip (s : Str) : Str :=
  ((s.dropWhile isSpace).reverse.dropWhile isSpace).reverse

/-- Python `needle in hay` on strings: substring containment. -/
def startsWithStr : Str → Str → Bool
  | [], _ => true
  | _ :: _, [] => false
  | a :: as, b :: bs => a == b && startsWithStr as bs

/-- Python `needle in hay` (second argument is the needle). -/
def containsStr : Str → Str → Bool
  | [], needle => needle.isEmpty
  | h :: t, needle => startsWithStr needle (h :: t) || containsStr t needle

/-- Number of distinct characters, Python `len(set(v))`. -/
def distinctCount (s : Str) : Nat := s.dedup.length

/-- Character class of the username regex `[a-zA-Z0-9_-]`. -/
def isUsernameChar (n : Nat) : Bool := isAlnumCode n || n == 95 || n == 45

/-- Python `re.match(r"^[a-zA-Z0-9_-]+$", v)` as a Bool. -/
def matchesUsernameCharset (s : Str) : Bool := !s.isEmpty && s.all isUsernameChar

/-- Python `re.match(r"^[a-zA-Z0-9]", v)`: first character alphanumeric. -/
def startsAlnum (s : Str) : Bool :=
  match s with
  | [] => false
  | c :: _ => isAlnumCode c

/-- Python `v.endswith(("_", "-"))`: last character is `_` or `-`. -/
def endsUnderscoreOrHyphen (s : Str) : Bool :=
  match s.reverse with
  | [] => false
  | c :: _ => c == 95 || c == 45

/-- The fixed reserved-username set of `schemas.py`. -/
def reservedUsernames : List Str :=
  [strOf "admin", strOf "administrator", strOf "root", strOf "user", strOf "test",
   strOf "demo", strOf "guest", strOf "api", strOf "www", strOf "mail",
   strOf "email", strOf "support", strOf "help", strOf "info", strOf "contact",
   strOf "null", strOf "undefined", strOf "none", strOf "system", strOf "operator"]

/-- Embedding of `UserBase.validate_username` (schemas.py lines 24-88).
Checks are performed in source order; the stored form is the lowercased
stripped input. -/
def validate_username (v : Str) : Except String Str :=
  if v.isEmpty then .error "Username is required and must be a string"
  else
    let v := pyStrip v
    if v.length = 0 then .error "Username cannot be empty"
    else if v.length < 3 then .error "Username must be at least 3 characters long"
    else if 50 < v.length then .error "Username cannot exceed 50 characters"
    else if !matchesUsernameCharset v then
      .error "Username can only contain letters, numbers, underscores, and hyphens"
    else if !startsAlnum v then .error "Username must start with a letter or number"
    else if endsUnderscoreOrHyphen v then
      .error "Username cannot end with underscore or hyphen"
    else if reservedUsernames.contains (pyLower v) then
      .error "Username is reserved and cannot be used"
    else if distinctCount v < 2 && 3 < v.length then
      .error "Username cannot be repetitive characters"
    else .ok (pyLower v)

/-- The fixed special-character set of the password rules, code points of
the characters in the regex class of schemas.py line 461. -/
def isPasswordSpecial (n : Nat) : Bool :=
  [33, 64, 35, 36, 37, 94, 38, 42, 40, 41, 44, 46, 63, 34, 58, 123, 125, 124, 60, 62].contains n

/-- The fixed weak-password set of `schemas.py`. -/
def weakPasswords : List Str :=
  [strOf "password", strOf "password123", strOf "12345678", strOf "qwerty123",
   strOf "abc123456", strOf "password1", strOf "admin123", strOf "user123",
   strOf "test123", strOf "demo123"]

/-- The fixed sequential substrings of `UserCreate.validate_password`
(schemas.py line 488). -/
def sequences : List Str :=
  [strOf "1234", strOf "abcd", strOf "qwer", strOf "asdf", strOf "zxcv"]

/-- Embedding of `UserCreate.validate_password` (schemas.py lines 435-493):
length 8-128, character classes, weak set, distinct characters, and the
sequential-substring check. -/
def UserCreate_validate_password (v : Str) : Except String Str :=
  if v.isEmpty then .error "Password is required and must be a string"
  else if v.length < 8 then .error "Password must be at least 8 characters long"
  else if 128 < v.length then .error "Password cannot exceed 128 characters"
  else if !v.any isUpperCode then .error "Password must contain at least one uppercase letter"
  else if !v.any isLowerCode then .error "Password must contain at least one lowercase letter"
  else if !v.any isDigitCode then .error "Password must contain at least one number"
  else if !v.any isPasswordSpecial then .error "Password must contain at least one special character"
  else if weakPasswords.contains (pyLower v) then .error "Password is too common and weak"
  else if distinctCount v < 4 then .error "Password cannot be too repetitive"
  else if sequences.any (fun seq => containsStr (pyLower v) seq) then
    .error "Password cannot contain common sequential patterns"
  else .ok v

/-- Embedding of `UserRegister.validate_password` (schemas.py lines 679-723).
This is the validator the register route actually runs; unlike
`UserCreate.validate_password` it performs NO sequential-substring check. -/
def UserRegister_validate_password (v : Str) : Except String Str :=
  if v.isEmpty then .error "Password is required and must be a string"
  else if v.length < 8 then .error "Password must be at least 8 characters long"
  else if 128 < v.length then .error "Password cannot exceed 128 characters"
  else if !v.any isUpperCode then .error "Password must contain at least one uppercase letter"
  else if !v.any isLowerCode then .error "Password must contain at least one lowercase letter"
  else if !v.any isDigitCode then .error "Password must contain at least one number"
  else if !v.any isPasswordSpecial then .error "Password must contain at least one special character"
  else if weakPasswords.contains (pyLower v) then .error "Password is too common and weak"
  else if distinctCount v < 4 then .error "Password cannot be too repetitive"
  else .ok v

/-- Synonym table of `TaskUpdate.validate_state` (schemas.py lines 329-342),
in source order. -/
def validStates : List (Str × Str) :=
  [(strOf "done", strOf "done"), (strOf "completed", strOf "done"),
   (strOf "finished", strOf "done"), (strOf "complete", strOf "done"),
   (strOf "true", strOf "done"), (strOf "1", strOf "done"),
   (strOf "pending", strOf "pending"), (strOf "todo", strOf "pending"),
   (strOf "incomplete", strOf "pending"), (strOf "open", strOf "pending"),
   (strOf "false", strOf "pending"), (strOf "0", strOf "pending")]

/-- Embedding of `TaskUpdate.validate_state` (schemas.py lines 314-353):
strip and lowercase, reject empty, then look the value up in the fixed
synonym table; anything absent from the table is rejected. -/
def validate_state (v : Option Str) : Except String (Option Str) :=
  match v with
  | none => .ok none
  | some s =>
    let s := pyLower (pyStrip s)
    if s.isEmpty then .error "State cannot be empty"
    else
      match validStates.lookup s with
      | some r => .ok (some r)
      | none => .error "State must be one of: done, pending"

/-- Character class of the email regex local part `[a-zA-Z0-9._%+-]`. -/
def isEmailLocalChar (n : Nat) : Bool :=
  isAlnumCode n || n == 46 || n == 95 || n == 37 || n == 43 || n == 45

/-- Character class of the email regex domain part `[a-zA-Z0-9.-]`. -/
def isEmailDomainChar (n : Nat) : Bool := isAlnumCode n || n == 46 || n == 45

/-- Recognizer for `re.match(r"^[a-zA-Z0-9._%+-]+@[a-zA-Z0-9.-]+\.[a-zA-Z]{2,}$", v)`:
a nonempty local part, a single `@`, a nonempty prefix of domain characters,
a dot, and a trailing run of at least two letters.  Since `@` occurs in
neither class, the first `@` is the only one, and since letters contain no
dot the final `\.` of any match is the last dot of the domain. -/
def matchesEmailRegex (s : Str) : Bool :=
  let localPart := s.takeWhile (fun c => c != 64)
  match s.dropWhile (fun c => c != 64) with
  | [] => false
  | _ :: domain =>
    !localPart.isEmpty && localPart.all isEmailLocalChar &&
    !domain.contains 64 &&
    (let revTld := domain.reverse.takeWhile (fun c => c != 46)
     match domain.reverse.dropWhile (fun c => c != 46) with
     | [] => false
     | _ :: revPre =>
       !revPre.isEmpty && revPre.all isEmailDomainChar &&
       2 ≤ revTld.length && revTld.all isAlphaCode)

/-- Embedding of `UserRegister.validate_email` (schemas.py lines 649-677). -/
def UserRegister_validate_email (v : Str) : Except String Str :=
  if v.isEmpty then .error "Email is required and must be a string"
  else
    let v := pyLower (pyStrip v)
    if v.length = 0 then .error "Email cannot be empty"
    else if 100 < v.length then .error "Email cannot exceed 100 characters"
    else if !matchesEmailRegex v then .error "Invalid email format"
    else if containsStr v (strOf "..") then .error "Email cannot contain consecutive dots"
    else if startsWithStr (strOf ".") v || startsWithStr (strOf "@") v then
      .error "Email cannot start with dot or @ symbol"
    else if startsWithStr (strOf ".") v.reverse || startsWithStr (strOf "@") v.reverse then
      .error "Email cannot end with dot or @ symbol"
    else .ok v

/-- Embedding of `UserRegister.validate_username` (schemas.py lines 592-647):
the checks of `UserBase.validate_username` except the repetition check. -/
def UserRegister_validate_username (v : Str) : Except String Str :=
  if v.isEmpty then .error "Username is required and must be a string"
  else
    let v := pyStrip v
    if v.length = 0 then .error "Username cannot be empty"
    else if v.length < 3 then .error "Username must be at least 3 characters long"
    else if 50 < v.length then .error "Username cannot exceed 50 characters"
    else if !matchesUsernameCharset v then
      .error "Username can only contain letters, numbers, underscores, and hyphens"
    else if !startsAlnum v then .error "Username must start with a letter or number"
    else if endsUnderscoreOrHyphen v then
      .error "Username cannot end with underscore or hyphen"
    else if reservedUsernames.contains (pyLower v) then
      .error "Username is reserved and cannot be used"
    else .ok (pyLower v)

/-- Embedding of `UserRegister.validate_confirm_password` (schemas.py
lines 725-732). -/
def validate_confirm_password (v : Str) : Except String Str :=
  if v.isEmpty then .error "Password confirmation is required"
  else .ok v

/-- Embedding of the `User` model (models.py lines 7-22). -/
structure User where
  id : Nat
  username : Str
  email : Str
  hashed_password : Str
  created_at : Nat
deriving DecidableEq

/-- Embedding of the `Task` model (models.py lines 25-47): the completion
field is named `state` (a boolean), and `updated_at` has only a creation
default, no on-update refresh. -/
structure Task where
  id : Nat
  title : Str
  description : Option Str
  state : Bool
  created_at : Nat
  updated_at : Nat
  user_id : Nat
deriving DecidableEq

/-- The relational store: the `users` and `tasks` tables. -/
structure DB where
  users : List User
  tasks : List Task
deriving DecidableEq

/-- Modelled bcrypt hash (passlib is an external dependency): an injective
tagging, deterministic because no claim depends on salting. -/
def get_password_hash (p : Str) : Str := strOf "bcrypt$" ++ p

/-- Embedding of `verify_password` (core/auth.py lines 40-42). -/
def verify_password (plain hashed : Str) : Bool := hashed == get_password_hash plain

/-- Default token lifetime (core/auth.py line 31). -/
def ACCESS_TOKEN_EXPIRE_MINUTES : Nat := 30

/-- A JWT claim set: a `sub` claim (possibly absent) and an `exp` claim. -/
structure TokenPayload where
  sub : Option Str
  exp : Nat
deriving DecidableEq

/-- A signed token: the payload plus an HMAC signature, modelled symbolically
as the pair of the signing key and the signed payload (forgery-free). -/
structure Jwt where
  payload : TokenPayload
  sig : Str × TokenPayload
deriving DecidableEq

/-- Symbolic `jwt.encode`: signs the payload with the key. -/
def jwtEncode (key : Str) (p : TokenPayload) : Jwt := ⟨p, (key, p)⟩

/-- Symbolic `jwt.decode`: fails on a signature not produced with `key`
over this payload, or on an expired `exp` claim. -/
def jwtDecode (key : Str) (now : Nat) (t : Jwt) : Except String TokenPayload :=
  if t.sig ≠ (key, t.payload) then .error "Signature verification failed"
  else if t.payload.exp < now then .error "Signature has expired"
  else .ok t.payload

/-- Embedding of `create_access_token` (core/auth.py lines 50-60): the expiry
is now plus the given delta, or now plus the configured default. -/
def create_access_token (key : Str) (sub : Option Str) (now : Nat)
    (expires_delta : Option Nat) : Jwt :=
  let expire := match expires_delta with
    | some d => now + d
    | none => now + ACCESS_TOKEN_EXPIRE_MINUTES * 60
  jwtEncode key { sub := sub, exp := expire }

/-- Outcome of token verification: the subject, or the 401
credentials-exception (the Unauthenticated outcome). -/
inductive VerifyOutcome
  | ok (username : Str)
  | credentialsException
deriving DecidableEq

/-- Embedding of `verify_token` (core/auth.py lines 63-74): decode, then
require a `sub` claim; any decode failure or missing subject raises the
credentials exception. -/
def verify_token (key : Str) (now : Nat) (token : Jwt) : VerifyOutcome :=
  match jwtDecode key now token with
  | .error _ => .credentialsException
  | .ok p =>
    match p.sub with
    | none => .credentialsException
    | some u => .ok u

/-- Embedding of `authenticate_user` (core/auth.py lines 112-134): exact-match
lookup of the submitted username, then bcrypt verification; the submitted
username is not trimmed or case folded. -/
def authenticate_user (db : DB) (username password : Str) : Option User :=
  match db.users.find? (fun u => u.username == username) with
  | none => none
  | some user => if verify_password password user.hashed_password then some user else none

/-- Outcome of the login route: a bearer token or HTTP 401
"Incorrect username or password". -/
inductive LoginOutcome
  | token (t : Jwt)
  | unauthorized
deriving DecidableEq

/-- Embedding of `login_user` (routers/auth.py lines 155-243): the username
and password arrive through `OAuth2PasswordRequestForm`, which applies no
validation or normalization, and are passed verbatim to
`authenticate_user`. -/
def login_user (db : DB) (key : Str) (now : Nat) (username password : Str) : LoginOutcome :=
  match authenticate_user db username password with
  | none => .unauthorized
  | some user =>
    .token (create_access_token key (some user.username) now
      (some (ACCESS_TOKEN_EXPIRE_MINUTES * 60)))

/-- A raw registration payload: each field is present or absent. -/
structure RegisterPayload where
  username : Option Str
  email : Option Str
  password : Option Str
  confirm_password : Option Str
deriving DecidableEq

/-- A validated `UserRegister` instance (schemas.py lines 584-590). -/
structure RegisterData where
  username : Str
  email : Str
  password : Str
  confirm_password : Str
deriving DecidableEq

/-- Pydantic required-field handling: an absent field is a validation error. -/
def requiredField (name : String) (v : Option Str) : Except String Str :=
  match v with
  | none => .error (name ++ ": Field required")
  | some s => .ok s

/-- Pydantic validation of `UserRegister`: required fields, the four field
validators, then the `validate_passwords_match` model validator (schemas.py
lines 734-739), which compares the validated password and confirmation. -/
def parseUserRegister (p : RegisterPayload) : Except String RegisterData := do
  let u ← requiredField "username" p.username
  let u ← UserRegister_validate_username u
  let e ← requiredField "email" p.email
  let e ← UserRegister_validate_email e
  let pw ← requiredField "password" p.password
  let pw ← UserRegister_validate_password pw
  let cp ← requiredField "confirm_password" p.confirm_password
  let cp ← validate_confirm_password cp
  if pw ≠ cp then .error "Password and confirmation password do not match"
  else .ok { username := u, email := e, password := pw, confirm_password := cp }

/-- Outcome of the register route.  `usernameConflict` and `emailConflict`
are the HTTP 400 "already registered" responses (the Conflict outcome of the
specification's error taxonomy); `validationError` is the 422 produced when
pydantic rejects the payload before the handler runs. -/
inductive RegisterOutcome
  | created (u : User)
  | usernameConflict
  | emailConflict
  | validationError (msg : String)
deriving DecidableEq

/-- Embedding of `register_user` (routers/auth.py lines 35-152) on a
validated payload: reject on an existing username, then on an existing
email, otherwise hash the password and insert the new user. -/
def register_user (db : DB) (d : RegisterData) (newId now : Nat) : RegisterOutcome × DB :=
  match db.users.find? (fun u => u.username == d.username) with
  | some _ => (.usernameConflict, db)
  | none =>
    match db.users.find? (fun u => u.email == d.email) with
    | some _ => (.emailConflict, db)
    | none =>
      let newUser : User :=
        { id := newId, username := d.username, email := d.email,
          hashed_password := get_password_hash d.password, created_at := now }
      (.created newUser, { db with users := db.users ++ [newUser] })

/-- The register endpoint: pydantic validation of the raw payload, then the
route handler; a validation failure never reaches the store. -/
def register_endpoint (db : DB) (p : RegisterPayload) (newId now : Nat) :
    RegisterOutcome × DB :=
  match parseUserRegister p with
  | .error e => (.validationError e, db)
  | .ok d => register_user db d newId now

/-- A Python attribute value, as stored on the ORM `Task` and the pydantic
`TaskUpdate` objects. -/
inductive PyVal
  | vStr (s : Str)
  | vBool (b : Bool)
  | vNat (n : Nat)
  | vNone
deriving DecidableEq

/-- A validated `TaskUpdate` instance (schemas.py lines 246-251): exactly the
fields `title`, `description` and `state`, each possibly `None`. -/
structure TaskUpdate where
  title : Option Str
  description : Option Str
  state : Option Str
deriving DecidableEq

/-- Python attribute lookup on a `Task` ORM object: the model declares
`id`, `title`, `description`, `state`, `created_at`, `updated_at` and
`user_id` (models.py lines 34-44); any other name raises `AttributeError`,
modelled as `none`.  In particular there is no `is_done` attribute. -/
def Task.getattr (t : Task) (name : String) : Option PyVal :=
  if name = "id" then some (.vNat t.id)
  else if name = "title" then some (.vStr t.title)
  else if name = "description" then
    some (match t.description with | some d => .vStr d | none => .vNone)
  else if name = "state" then some (.vBool t.state)
  else if name = "created_at" then some (.vNat t.created_at)
  else if name = "updated_at" then some (.vNat t.updated_at)
  else if name = "user_id" then some (.vNat t.user_id)
  else none

/-- Python attribute assignment on a `Task` ORM object: only the declared
fields accept a value of the field's type; any other name fails. -/
def Task.setattr (t : Task) (name : String) (v : PyVal) : Except String Task :=
  match name, v with
  | "title", .vStr s => .ok { t with title := s }
  | "description", .vStr s => .ok { t with description := some s }
  | "description", .vNone => .ok { t with description := none }
  | "state", .vBool b => .ok { t with state := b }
  | _, _ => .error "AttributeError"

/-- Python attribute lookup on a validated `TaskUpdate` instance: pydantic
exposes exactly the declared fields `title`, `description` and `state`;
any other name raises `AttributeError`. -/
def TaskUpdate.getattr (u : TaskUpdate) (name : String) : Option PyVal :=
  if name = "title" then
    some (match u.title with | some s => .vStr s | none => .vNone)
  else if name = "description" then
    some (match u.description with | some s => .vStr s | none => .vNone)
  else if name = "state" then
    some (match u.state with | some s => .vStr s | none => .vNone)
  else none

/-- Propagation of a Python attribute read: a missing attribute raises. -/
def pyAttr (v : Option PyVal) : Except String PyVal :=
  match v with
  | some x => .ok x
  | none => .error "AttributeError"

/-- Body of `update_task` after the ownership lookup (routers/tasks.py
lines 209-225), translated statement by statement.  Lines 210-214 build
`original_values`, reading `task.title`, `task.description` and
`task.is_done`; the `Task` model names its completion field `state`, so the
third read raises `AttributeError`.  Lines 217-222 then apply the title and
description updates and read `task_update.is_done`, which the `TaskUpdate`
schema does not declare either. -/
def update_task_body (task : Task) (u : TaskUpdate) : Except String Task := do
  let _ ← pyAttr (task.getattr "title")
  let _ ← pyAttr (task.getattr "description")
  let _ ← pyAttr (task.getattr "is_done")
  let task ← match u.title with
    | some s => task.setattr "title" (.vStr s)
    | none => pure task
  let task ← match u.description with
    | some s => task.setattr "description" (.vStr s)
    | none => pure task
  let newDone ← pyAttr (u.getattr "is_done")
  let task ← if newDone ≠ PyVal.vNone then task.setattr "is_done" newDone else pure task
  pure task

/-- Outcome of the update route: the refreshed task, HTTP 404, or the HTTP
500 produced by the generic exception handler (routers/tasks.py lines
273-286). -/
inductive UpdateOutcome
  | updated (t : Task)
  | notFound
  | internalError
deriving DecidableEq

/-- Embedding of `update_task` (routers/tasks.py lines 169-286): one lookup
filtered by task id AND owner id; absent row gives 404; otherwise the body
runs and any exception is caught as HTTP 500 with nothing committed. -/
def update_task (db : DB) (current tid : Nat) (u : TaskUpdate) : UpdateOutcome × DB :=
  match db.tasks.find? (fun t => t.id == tid && t.user_id == current) with
  | none => (.notFound, db)
  | some task =>
    match update_task_body task u with
    | .error _ => (.internalError, db)
    | .ok t2 =>
      (.updated t2, { db with tasks := db.tasks.map (fun x => if x.id == tid then t2 else x) })

/-- Outcome of the single-task read route. -/
inductive ReadOutcome
  | found (t : Task)
  | notFound
deriving DecidableEq

/-- Embedding of `read_task` (routers/tasks.py lines 127-166): lookup
filtered by task id AND owner id; absent row gives 404. -/
def read_task (db : DB) (current tid : Nat) : ReadOutcome :=
  match db.tasks.find? (fun t => t.id == tid && t.user_id == current) with
  | some t => .found t
  | none => .notFound

/-- Outcome of the delete route: success, HTTP 404, or the HTTP 500
produced by the generic exception handler (routers/tasks.py lines
349-364). -/
inductive DeleteOutcome
  | deleted
  | notFound
  | internalError
deriving DecidableEq

/-- Body of `delete_task` after the ownership lookup (routers/tasks.py
lines 323-331), translated statement by statement.  Lines 324-328 build
`task_info`, reading `task.title`, `task.description` and `task.is_done`
BEFORE `db.delete` runs; the `Task` model names its completion field
`state` (models.py line 37), so the third read raises `AttributeError` and
the row is never deleted. -/
def delete_task_body (task : Task) : Except String Unit := do
  let _ ← pyAttr (task.getattr "title")
  let _ ← pyAttr (task.getattr "description")
  let _ ← pyAttr (task.getattr "is_done")
  pure ()

/-- Embedding of `delete_task` (routers/tasks.py lines 289-364): one lookup
filtered by task id AND owner id; absent row gives 404; otherwise the body
runs and any exception is caught as HTTP 500 with the row retained, so the
removal branch is unreachable with the actual `Task` model. -/
def delete_task (db : DB) (current tid : Nat) : DeleteOutcome × DB :=
  match db.tasks.find? (fun t => t.id == tid && t.user_id == current) with
  | none => (.notFound, db)
  | some task =>
    match delete_task_body task with
    | .error _ => (.internalError, db)
    | .ok _ =>
      (.deleted, { db with tasks := db.tasks.filter (fun x => x.id != task.id) })

/-- Ordering used by `read_tasks`: creation timestamp descending. -/
def createdDesc (a b : Task) : Prop := b.created_at ≤ a.created_at

instance : DecidableRel createdDesc := fun a b => Nat.decLe b.created_at a.created_at

instance : IsTotal Task createdDesc :=
  ⟨fun a b => (Nat.le_total b.created_at a.created_at).imp id id⟩

instance : IsTrans Task createdDesc :=
  ⟨fun _ _ _ h1 h2 => Nat.le_trans h2 h1⟩

/-- Embedding of `read_tasks` (routers/tasks.py lines 79-124): cap the limit
at 1000, filter to the authenticated user's tasks, order by `created_at`
descending, then apply offset and limit.  The query parameters are `int`;
a negative offset or limit is clamped to zero. -/
def read_tasks (db : DB) (current : Nat) (skip limit : Int) : List Task :=
  let lim := if 1000 < limit then 1000 else limit
  let owned := db.tasks.filter (fun t => t.user_id == current)
  let sorted := owned.insertionSort createdDesc
  (sorted.drop skip.toNat).take lim.toNat

/-- The done-mapped synonyms of the state table. -/
def doneSynonyms : List Str :=
  [strOf "done", strOf "completed", strOf "finished", strOf "complete",
   strOf "true", strOf "1"]

/-- The pending-mapped synonyms of the state table. -/
def pendingSynonyms : List Str :=
  [strOf "pending", strOf "todo", strOf "incomplete", strOf "open",
   strOf "false", strOf "0"]

/-- Concrete user for witnesses: a registered `alice`. -/
def aliceUser : User :=
  { id := 1, username := strOf "alice", email := strOf "alice@example.com",
    hashed_password := get_password_hash (strOf "Passw0rd!"), created_at := 0 }

/-- Concrete second user for witnesses. -/
def bobUser : User :=
  { id := 2, username := strOf "bob99", email := strOf "bob@example.com",
    hashed_password := get_password_hash (strOf "S3cret!x"), created_at := 0 }

/-- Concrete pending task titled "Old", owned by alice. -/
def oldTask : Task :=
  { id := 10, title := strOf "Old", description := none, state := false,
    created_at := 3, updated_at := 5, user_id := 1 }

/-- Concrete store holding alice, bob and alice's pending task. -/
def exampleDb : DB := { users := [aliceUser, bobUser], tasks := [oldTask] }

theorem lowerCode_idem (n : Nat) : lowerCode (lowerCode n) = lowerCode n := by
  simp only [lowerCode, isUpperCode, Bool.and_eq_true, decide_eq_true_eq]
  split_ifs <;> omega

theorem except_ok_of_bind {ε α β : Type} {x : Except ε α} {f : α → Except ε β} {b : β}
    (h : (x >>= f) = .ok b) : ∃ a, x = .ok a ∧ f a = .ok b := by
  cases x with
  | error e => exact absurd h (by simp [Bind.bind, Except.bind])
  | ok a => exact ⟨a, rfl, h⟩

theorem UserRegister_validate_password_ok_id {v w : Str}
    (h : UserRegister_validate_password v = .ok w) : w = v := by
  unfold UserRegister_validate_password at h
  split at h; · simp at h
  split at h; · simp at h
  split at h; · simp at h
  split at h; · simp at h
  split at h; · simp at h
  split at h; · simp at h
  split at h; · simp at h
  split at h; · simp at h
  split at h; · simp at h
  exact (Except.ok.injEq _ _ ▸ h).symm

theorem sequential_free_of_UserCreate_ok {v w : Str}
    (h : UserCreate_validate_password v = .ok w) :
    ∀ seq ∈ sequences, containsStr (pyLower v) seq = false := by
  unfold UserCreate_validate_password at h
  split at h; · simp at h
  split at h; · simp at h
  split at h; · simp at h
  split at h; · simp at h
  split at h; · simp at h
  split at h; · simp at h
  split at h; · simp at h
  split at h; · simp at h
  split at h; · simp at h
  split at h
  · simp at h
  · next hseq =>
    intro seq hs
    simp only [Bool.not_eq_true] at hseq
    have h3 := List.any_eq_false.mp hseq seq hs
    simpa using h3

/-- C1: the specification promises that updating an existing pending task
titled "Old" with payload state=done keeps the title, sets the state to done
and strictly increases updated_at.  The route instead reads the attribute
`is_done` on objects whose field is named `state` (routers/tasks.py lines
213 and 221 versus models.py line 37 and schemas.py line 251), so the
handler raises `AttributeError`, the generic handler returns the
internal-error outcome, nothing is committed, and `updated_at` (which has no
on-update default) is never refreshed.  Evaluating the embedded route at the
failing input shows the crash and the unchanged store. -/
theorem update_state_crashes_with_attribute_error :
    validate_state (some (strOf "done")) = Except.ok (some (strOf "done"))
    ∧ oldTask.title = strOf "Old" ∧ oldTask.state = false ∧ oldTask.user_id = 1
    ∧ update_task exampleDb 1 10
        { title := none, description := none, state := some (strOf "done") }
        = (UpdateOutcome.internalError, exampleDb) := by decide

/-- C4 counterexample: the password "Xyzabcd9!" contains the fixed sequential
substring "abcd" and satisfies every other rule, yet the registration
validator (`UserRegister.validate_password`, the one the register route
runs) accepts it, because that validator has no sequential-substring
check. -/
theorem registration_accepts_sequential_password :
    UserRegister_validate_password (strOf "Xyzabcd9!") = .ok (strOf "Xyzabcd9!")
    ∧ containsStr (pyLower (strOf "Xyzabcd9!")) (strOf "abcd") = true := by decide

/-- C4 amended: the sequential-substring rule lives in
`UserCreate.validate_password` (every password that validator accepts is free
of the fixed sequences), but the register route validates with
`UserRegister.validate_password`, which performs no such check and accepts
the example sequential password. -/
theorem sequential_check_lives_only_in_UserCreate (v w : Str)
    (h : UserCreate_validate_password v = .ok w) :
    (∀ seq ∈ sequences, containsStr (pyLower v) seq = false)
    ∧ UserRegister_validate_password (strOf "Xyzabcd9!") = .ok (strOf "Xyzabcd9!") :=
  ⟨sequential_free_of_UserCreate_ok h, by decide⟩

theorem sequential_check_lives_only_in_UserCreate_witness :
    (∀ seq ∈ sequences, containsStr (pyLower (strOf "Passw0rd!")) seq = false)
    ∧ UserRegister_validate_password (strOf "Xyzabcd9!") = .ok (strOf "Xyzabcd9!") :=
  sequential_check_lives_only_in_UserCreate (strOf "Passw0rd!") (strOf "Passw0rd!") (by decide)

/-- C5: when a user named alice already exists, registering alice again with
any email fails with the Conflict outcome attributed to the username, and
the store is returned unchanged. -/
theorem duplicate_username_conflict (db : DB) (d : RegisterData) (newId now : Nat)
    (halice : ∃ u ∈ db.users, u.username = strOf "alice")
    (hd : d.username = strOf "alice") :
    register_user db d newId now = (.usernameConflict, db) := by
  obtain ⟨u, hu, hname⟩ := halice
  cases hfind : db.users.find? (fun x => x.username == d.username) with
  | none => exact absurd (List.find?_eq_none.mp hfind u hu) (by simp [hname, hd])
  | some x => simp [register_user, hfind]

theorem duplicate_username_conflict_witness :
    register_user exampleDb
      { username := strOf "alice", email := strOf "other@mail.com",
        password := strOf "Whatever9!", confirm_password := strOf "Whatever9!" } 3 7
      = (.usernameConflict, exampleDb) :=
  duplicate_username_conflict exampleDb _ 3 7 ⟨aliceUser, by decide, by decide⟩ rfl

/-- C2: a task owned by A is invisible to any other authenticated user B:
read, update and delete as B yield the not-found outcome, and each outcome
is identical to the outcome of the same call on an id for which no task
exists at all. -/
theorem ownership_isolation (db : DB) (A B tid tid2 : Nat) (u : TaskUpdate)
    (_hexists : ∃ t ∈ db.tasks, t.id = tid ∧ t.user_id = A)
    (howner : ∀ t ∈ db.tasks, t.id = tid → t.user_id = A)
    (hBA : B ≠ A)
    (hfresh : ∀ t ∈ db.tasks, t.id ≠ tid2) :
    read_task db B tid = .notFound
    ∧ read_task db B tid = read_task db B tid2
    ∧ update_task db B tid u = (.notFound, db)
    ∧ update_task db B tid u = update_task db B tid2 u
    ∧ delete_task db B tid = (.notFound, db)
    ∧ delete_task db B tid = delete_task db B tid2 := by
  have h1 : db.tasks.find? (fun t => t.id == tid && t.user_id == B) = none := by
    rw [List.find?_eq_none]
    intro t ht
    simp only [Bool.and_eq_true, beq_iff_eq, not_and]
    intro hid huid
    exact hBA (huid ▸ (howner t ht hid).symm ▸ rfl)
  have h2 : db.tasks.find? (fun t => t.id == tid2 && t.user_id == B) = none := by
    rw [List.find?_eq_none]
    intro t ht
    simp only [Bool.and_eq_true, beq_iff_eq, not_and]
    intro hid _
    exact hfresh t ht hid
  refine ⟨?_, ?_, ?_, ?_, ?_, ?_⟩ <;>
    simp [read_task, update_task, delete_task, h1, h2]

theorem ownership_isolation_witness :
    read_task exampleDb 2 10 = .notFound
    ∧ read_task exampleDb 2 10 = read_task exampleDb 2 99
    ∧ update_task exampleDb 2 10 ⟨none, none, none⟩ = (.notFound, exampleDb)
    ∧ update_task exampleDb 2 10 ⟨none, none, none⟩ = update_task exampleDb 2 99 ⟨none, none, none⟩
    ∧ delete_task exampleDb 2 10 = (.notFound, exampleDb)
    ∧ delete_task exampleDb 2 10 = delete_task exampleDb 2 99 :=
  ownership_isolation exampleDb 1 2 10 99 ⟨none, none, none⟩
    ⟨oldTask, by decide, by decide, by decide⟩ (by decide) (by decide) (by decide)

/-- C3: a token issued over a claim set with a subject verifies to that same
subject at any time up to its expiry; after the expiry, or for any token
whose signature was not produced with the configured key, verification
raises the credentials exception (the Unauthenticated outcome). -/
theorem token_roundtrip_and_rejection (key s : Str) (now ttl t2 t3 t4 : Nat) (j : Jwt)
    (hbefore : t2 ≤ now + ttl) (hafter : now + ttl < t3)
    (htampered : j.sig ≠ (key, j.payload)) :
    verify_token key t2 (create_access_token key (some s) now (some ttl)) = .ok s
    ∧ verify_token key t3 (create_access_token key (some s) now (some ttl)) = .credentialsException
    ∧ verify_token key t4 j = .credentialsException := by
  refine ⟨?_, ?_, ?_⟩
  · simp [verify_token, jwtDecode, create_access_token, jwtEncode, Nat.not_lt.mpr hbefore]
  · simp [verify_token, jwtDecode, create_access_token, jwtEncode, hafter]
  · unfold verify_token jwtDecode
    rw [if_pos htampered]

theorem token_roundtrip_and_rejection_witness :
    verify_token (strOf "k") 100 (create_access_token (strOf "k") (some (strOf "alice")) 50 (some 60)) = .ok (strOf "alice")
    ∧ verify_token (strOf "k") 111 (create_access_token (strOf "k") (some (strOf "alice")) 50 (some 60)) = .credentialsException
    ∧ verify_token (strOf "k") 0 ⟨⟨some (strOf "alice"), 200⟩, (strOf "evil", ⟨some (strOf "alice"), 200⟩)⟩ = .credentialsException :=
  token_roundtrip_and_rejection (strOf "k") (strOf "alice") 50 60 100 111 0
    ⟨⟨some (strOf "alice"), 200⟩, (strOf "evil", ⟨some (strOf "alice"), 200⟩)⟩
    (by decide) (by decide) (by decide)

/-- C9: the login route hands the submitted username to the store lookup
verbatim (no trim, no case folding); since stored usernames are lowercase,
a login whose username differs from a registered username only by letter
case fails as invalid credentials whatever the password. -/
theorem login_is_case_sensitive (db : DB) (key : Str) (now : Nat) (w v p : Str)
    (hreg : ∃ u ∈ db.users, u.username = w)
    (hlowerall : ∀ u ∈ db.users, pyLower u.username = u.username)
    (hcase : pyLower v = pyLower w) (hne : v ≠ w) :
    authenticate_user db v p = none ∧ login_user db key now v p = .unauthorized := by
  have hw : pyLower w = w := by
    obtain ⟨u, hu, huname⟩ := hreg
    exact huname ▸ hlowerall u hu
  have hfind : db.users.find? (fun u => u.username == v) = none := by
    rw [List.find?_eq_none]
    intro u hu
    simp only [beq_iff_eq]
    intro he
    have hv : pyLower v = v := he ▸ hlowerall u hu
    rw [hcase, hw] at hv
    exact hne hv.symm
  constructor
  · simp [authenticate_user, hfind]
  · simp [login_user, authenticate_user, hfind]

theorem login_is_case_sensitive_witness :
    authenticate_user exampleDb (strOf "Alice") (strOf "Passw0rd!") = none
    ∧ login_user exampleDb (strOf "k") 0 (strOf "Alice") (strOf "Passw0rd!") = .unauthorized :=
  login_is_case_sensitive exampleDb (strOf "k") 0 (strOf "alice") (strOf "Alice") (strOf "Passw0rd!")
    ⟨aliceUser, by decide, by decide⟩ (by decide) (by decide) (by decide)

theorem lookup_validStates_done : ∀ t ∈ doneSynonyms,
    validStates.lookup t = some (strOf "done") ∧ t.isEmpty = false := by decide

theorem lookup_validStates_pending : ∀ t ∈ pendingSynonyms,
    validStates.lookup t = some (strOf "pending") ∧ t.isEmpty = false := by decide

theorem lookup_validStates_none {t : Str}
    (h1 : t ∉ doneSynonyms) (h2 : t ∉ pendingSynonyms) :
    validStates.lookup t = none := by
  simp only [doneSynonyms, List.mem_cons, List.not_mem_nil, or_false, not_or] at h1
  simp only [pendingSynonyms, List.mem_cons, List.not_mem_nil, or_false, not_or] at h2
  obtain ⟨n1, n2, n3, n4, n5, n6⟩ := h1
  obtain ⟨m1, m2, m3, m4, m5, m6⟩ := h2
  have e1 := beq_eq_false_iff_ne.mpr n1
  have e2 := beq_eq_false_iff_ne.mpr n2
  have e3 := beq_eq_false_iff_ne.mpr n3
  have e4 := beq_eq_false_iff_ne.mpr n4
  have e5 := beq_eq_false_iff_ne.mpr n5
  have e6 := beq_eq_false_iff_ne.mpr n6
  have f1 := beq_eq_false_iff_ne.mpr m1
  have f2 := beq_eq_false_iff_ne.mpr m2
  have f3 := beq_eq_false_iff_ne.mpr m3
  have f4 := beq_eq_false_iff_ne.mpr m4
  have f5 := beq_eq_false_iff_ne.mpr m5
  have f6 := beq_eq_false_iff_ne.mpr m6
  simp [validStates, List.lookup, e1, e2, e3, e4, e5, e6, f1, f2, f3, f4, f5, f6]

theorem validate_state_eq (s : Str) : validate_state (some s) =
    (if (pyLower (pyStrip s)).isEmpty then .error "State cannot be empty"
     else match validStates.lookup (pyLower (pyStrip s)) with
       | some r => .ok (some r)
       | none => .error "State must be one of: done, pending") := rfl

/-- C7: after trimming and lowercasing, each of the six done-synonyms maps to
the done state, each of the six pending-synonyms maps to the pending state,
and every other present string is rejected with a validation error. -/
theorem state_synonym_mapping (s : Str) :
    (pyLower (pyStrip s) ∈ doneSynonyms → validate_state (some s) = .ok (some (strOf "done")))
    ∧ (pyLower (pyStrip s) ∈ pendingSynonyms → validate_state (some s) = .ok (some (strOf "pending")))
    ∧ (pyLower (pyStrip s) ∉ doneSynonyms → pyLower (pyStrip s) ∉ pendingSynonyms →
        ∃ e, validate_state (some s) = .error e) := by
  refine ⟨?_, ?_, ?_⟩
  · intro h
    obtain ⟨hl, he⟩ := lookup_validStates_done _ h
    rw [validate_state_eq, he, hl]
    rfl
  · intro h
    obtain ⟨hl, he⟩ := lookup_validStates_pending _ h
    rw [validate_state_eq, he, hl]
    rfl
  · intro h1 h2
    by_cases he : (pyLower (pyStrip s)).isEmpty
    · exact ⟨"State cannot be empty", by rw [validate_state_eq, if_pos he]⟩
    · refine ⟨"State must be one of: done, pending", ?_⟩
      rw [validate_state_eq, if_neg he, lookup_validStates_none h1 h2]

theorem state_synonym_mapping_witness :
    validate_state (some (strOf " Completed ")) = .ok (some (strOf "done"))
    ∧ validate_state (some (strOf "todo")) = .ok (some (strOf "pending"))
    ∧ ∃ e, validate_state (some (strOf "finito")) = .error e :=
  ⟨(state_synonym_mapping (strOf " Completed ")).1 (by decide),
   (state_synonym_mapping (strOf "todo")).2.1 (by decide),
   (state_synonym_mapping (strOf "finito")).2.2 (by decide) (by decide)⟩

/-- C8: for every authenticated list request, at most 1000 tasks come back
whatever limit was requested, every returned task belongs to the requester,
and the result is ordered by creation timestamp descending. -/
theorem list_tasks_capped_owned_sorted (db : DB) (current : Nat) (skip limit : Int) :
    (read_tasks db current skip limit).length ≤ 1000
    ∧ (∀ t ∈ read_tasks db current skip limit, t.user_id = current)
    ∧ List.Sorted createdDesc (read_tasks db current skip limit) := by
  unfold read_tasks
  refine ⟨?_, ?_, ?_⟩
  · rw [List.length_take]
    have hlim : (if 1000 < limit then 1000 else limit).toNat ≤ 1000 := by
      split <;> omega
    exact le_trans (min_le_left _ _) hlim
  · intro t ht
    have h1 : t ∈ (db.tasks.filter (fun x => x.user_id == current)).insertionSort createdDesc :=
      List.mem_of_mem_drop (List.mem_of_mem_take ht)
    have h2 : t ∈ db.tasks.filter (fun x => x.user_id == current) :=
      (List.perm_insertionSort createdDesc _).mem_iff.mp h1
    have h3 := (List.mem_filter.mp h2).2
    simpa using h3
  · have hs : List.Sorted createdDesc
        ((db.tasks.filter (fun x => x.user_id == current)).insertionSort createdDesc) :=
      List.sorted_insertionSort createdDesc _
    exact List.Pairwise.sublist ((List.take_sublist _ _).trans (List.drop_sublist _ _)) hs

theorem list_tasks_capped_owned_sorted_witness :
    (read_tasks exampleDb 1 0 2000).length ≤ 1000
    ∧ (∀ t ∈ read_tasks exampleDb 1 0 2000, t.user_id = 1)
    ∧ List.Sorted createdDesc (read_tasks exampleDb 1 0 2000) :=
  list_tasks_capped_owned_sorted exampleDb 1 0 2000

theorem except_bind_ok {ε α β : Type} (a : α) (f : α → Except ε β) :
    (Except.ok a >>= f) = f a := rfl

theorem except_bind_error {ε α β : Type} (e : ε) (f : α → Except ε β) :
    ((Except.error e : Except ε α) >>= f) = Except.error e := rfl

theorem requiredField_ok_inv {n : String} {v : Option Str} {a : Str}
    (h : requiredField n v = .ok a) : v = some a := by
  cases v with
  | none => simp [requiredField] at h
  | some s =>
    simp only [requiredField, Except.ok.injEq] at h
    rw [h]

theorem validate_confirm_password_ok_id {v w : Str}
    (h : validate_confirm_password v = .ok w) : w = v := by
  unfold validate_confirm_password at h
  split at h
  · simp at h
  · exact (Except.ok.injEq _ _ ▸ h).symm

theorem parseUserRegister_def (p : RegisterPayload) : parseUserRegister p =
    (requiredField "username" p.username >>= fun u0 =>
     UserRegister_validate_username u0 >>= fun u =>
     requiredField "email" p.email >>= fun e0 =>
     UserRegister_validate_email e0 >>= fun e =>
     requiredField "password" p.password >>= fun pw0 =>
     UserRegister_validate_password pw0 >>= fun pw =>
     requiredField "confirm_password" p.confirm_password >>= fun cp0 =>
     validate_confirm_password cp0 >>= fun cp =>
     if pw ≠ cp then .error "Password and confirmation password do not match"
     else .ok { username := u, email := e, password := pw, confirm_password := cp }) := rfl

theorem parseUserRegister_ok_inv {p : RegisterPayload} {d : RegisterData}
    (h : parseUserRegister p = .ok d) :
    p.password = some d.password ∧ p.confirm_password = some d.confirm_password
    ∧ d.password = d.confirm_password := by
  rw [parseUserRegister_def] at h
  obtain ⟨u0, hu0, h⟩ := except_ok_of_bind h
  obtain ⟨u, hu, h⟩ := except_ok_of_bind h
  obtain ⟨e0, he0, h⟩ := except_ok_of_bind h
  obtain ⟨e, he, h⟩ := except_ok_of_bind h
  obtain ⟨pw0, hpw0, h⟩ := except_ok_of_bind h
  obtain ⟨pw, hpw, h⟩ := except_ok_of_bind h
  obtain ⟨cp0, hcp0, h⟩ := except_ok_of_bind h
  obtain ⟨cp, hcp, h⟩ := except_ok_of_bind h
  split at h
  · simp at h
  · next hne =>
    have hpwcp : pw = cp := not_ne_iff.mp hne
    have hd : { username := u, email := e, password := pw, confirm_password := cp : RegisterData } = d := by
      simpa using h
    have h1 : p.password = some pw0 := requiredField_ok_inv hpw0
    have h2 : p.confirm_password = some cp0 := requiredField_ok_inv hcp0
    have h3 : pw = pw0 := UserRegister_validate_password_ok_id hpw
    have h4 : cp = cp0 := validate_confirm_password_ok_id hcp
    subst hd
    refine ⟨?_, ?_, hpwcp⟩
    · rw [h1, h3]
    · rw [h2, h4]

/-- C10: a registration payload must carry a confirm_password equal to the
password: with the field absent the endpoint rejects the payload and leaves
the store unchanged, an accepted payload always has password equal to
confirm_password, and a payload whose two values differ is rejected with the
store unchanged. -/
theorem confirm_password_required_and_must_match (db : DB) (p : RegisterPayload) (newId now : Nat) :
    (p.confirm_password = none → ∃ e, register_endpoint db p newId now = (.validationError e, db))
    ∧ (∀ d, parseUserRegister p = .ok d → p.password = p.confirm_password)
    ∧ (∀ s c, p.password = some s → p.confirm_password = some c → s ≠ c →
        ∃ e, register_endpoint db p newId now = (.validationError e, db)) := by
  refine ⟨?_, ?_, ?_⟩
  · intro hnone
    cases hp : parseUserRegister p with
    | error e => exact ⟨e, by simp [register_endpoint, hp]⟩
    | ok d =>
      have h2 := (parseUserRegister_ok_inv hp).2.1
      rw [hnone] at h2
      exact absurd h2 (by simp)
  · intro d hp
    obtain ⟨h1, h2, h3⟩ := parseUserRegister_ok_inv hp
    rw [h1, h2, h3]
  · intro s c hs hc hne
    cases hp : parseUserRegister p with
    | error e => exact ⟨e, by simp [register_endpoint, hp]⟩
    | ok d =>
      obtain ⟨h1, h2, h3⟩ := parseUserRegister_ok_inv hp
      rw [hs] at h1
      rw [hc] at h2
      have hs2 : s = d.password := Option.some_inj.mp h1
      have hc2 : c = d.confirm_password := Option.some_inj.mp h2
      exact absurd (hs2.trans (h3.trans hc2.symm)) hne

theorem confirm_password_required_and_must_match_witness :
    (∃ e, register_endpoint exampleDb
        ⟨some (strOf "carol"), some (strOf "c@x.io"), some (strOf "Whatever9!"), none⟩ 3 0
        = (.validationError e, exampleDb))
    ∧ (∃ e, register_endpoint exampleDb
        ⟨some (strOf "carol"), some (strOf "c@x.io"), some (strOf "Whatever9!"), some (strOf "Other123!")⟩ 3 0
        = (.validationError e, exampleDb)) :=
  ⟨(confirm_password_required_and_must_match exampleDb
      ⟨some (strOf "carol"), some (strOf "c@x.io"), some (strOf "Whatever9!"), none⟩ 3 0).1 rfl,
   (confirm_password_required_and_must_match exampleDb
      ⟨some (strOf "carol"), some (strOf "c@x.io"), some (strOf "Whatever9!"), some (strOf "Other123!")⟩ 3 0).2.2
     (strOf "Whatever9!") (strOf "Other123!") rfl rfl (by decide)⟩

theorem isUsernameChar_lowerCode {n : Nat} (h : isUsernameChar n = true) :
    isUsernameChar (lowerCode n) = true := by
  simp only [isUsernameChar, isAlnumCode, isAlphaCode, isUpperCode, isLowerCode, isDigitCode,
    lowerCode, Bool.or_eq_true, Bool.and_eq_true, decide_eq_true_eq, beq_iff_eq] at *
  split_ifs <;> omega

theorem isAlnumCode_lowerCode {n : Nat} (h : isAlnumCode n = true) :
    isAlnumCode (lowerCode n) = true := by
  simp only [isAlnumCode, isAlphaCode, isUpperCode, isLowerCode, isDigitCode,
    lowerCode, Bool.or_eq_true, Bool.and_eq_true, decide_eq_true_eq] at *
  split_ifs <;> omega

theorem isSpace_eq_false_of_isUsernameChar {n : Nat} (h : isUsernameChar n = true) :
    isSpace n = false := by
  rw [Bool.eq_false_iff]
  intro hs
  simp only [isSpace, isUsernameChar, isAlnumCode, isAlphaCode, isUpperCode, isLowerCode,
    isDigitCode, Bool.or_eq_true, Bool.and_eq_true, decide_eq_true_eq, beq_iff_eq] at hs h
  omega

theorem lowerCode_eq_95_iff {n : Nat} : lowerCode n = 95 ↔ n = 95 := by
  simp only [lowerCode, isUpperCode, Bool.and_eq_true, decide_eq_true_eq]
  split_ifs <;> omega

theorem lowerCode_eq_45_iff {n : Nat} : lowerCode n = 45 ↔ n = 45 := by
  simp only [lowerCode, isUpperCode, Bool.and_eq_true, decide_eq_true_eq]
  split_ifs <;> omega

theorem pyLower_idem (s : Str) : pyLower (pyLower s) = pyLower s := by
  simp only [pyLower, List.map_map]
  exact List.map_congr_left fun a _ => lowerCode_idem a

theorem dropWhile_eq_self_of_forall_false {p : Nat → Bool} {l : Str}
    (h : ∀ c ∈ l, p c = false) : l.dropWhile p = l := by
  cases l with
  | nil => rfl
  | cons a t =>
    rw [List.dropWhile_cons]
    simp [h a (List.mem_cons_self a t)]

theorem pyStrip_eq_self {l : Str} (h : ∀ c ∈ l, isSpace c = false) : pyStrip l = l := by
  unfold pyStrip
  rw [dropWhile_eq_self_of_forall_false h,
      dropWhile_eq_self_of_forall_false (fun c hc => h c (List.mem_reverse.mp hc)),
      List.reverse_reverse]

theorem validate_username_ok_elim {v w : Str} (h : validate_username v = .ok w) :
    w = pyLower (pyStrip v)
    ∧ 3 ≤ (pyStrip v).length ∧ (pyStrip v).length ≤ 50
    ∧ matchesUsernameCharset (pyStrip v) = true
    ∧ startsAlnum (pyStrip v) = true
    ∧ endsUnderscoreOrHyphen (pyStrip v) = false
    ∧ reservedUsernames.contains (pyLower (pyStrip v)) = false
    ∧ (2 ≤ distinctCount (pyStrip v) ∨ (pyStrip v).length ≤ 3) := by
  simp only [validate_username] at h
  split at h
  next => simp at h
  next h1 =>
  split at h
  next => simp at h
  next h2 =>
  split at h
  next => simp at h
  next h3 =>
  split at h
  next => simp at h
  next h4 =>
  split at h
  next => simp at h
  next h5 =>
  split at h
  next => simp at h
  next h6 =>
  split at h
  next => simp at h
  next h7 =>
  split at h
  next => simp at h
  next h8 =>
  split at h
  next => simp at h
  next h9 =>
  simp only [Bool.not_eq_true', Bool.not_eq_false] at h5 h6
  simp only [Bool.not_eq_true] at h7 h8
  simp only [Bool.and_eq_true, decide_eq_true_eq, not_and, Nat.not_lt] at h9
  refine ⟨(Except.ok.injEq _ _ ▸ h).symm, by omega, by omega, h5, h6, h7, h8, ?_⟩
  by_cases hd : distinctCount (pyStrip v) < 2
  · exact Or.inr (h9 hd)
  · exact Or.inl (by omega)

theorem validate_username_ok_intro {v : Str}
    (hne : v.isEmpty = false)
    (h3 : 3 ≤ (pyStrip v).length) (h50 : (pyStrip v).length ≤ 50)
    (hcs : matchesUsernameCharset (pyStrip v) = true)
    (hsa : startsAlnum (pyStrip v) = true)
    (heh : endsUnderscoreOrHyphen (pyStrip v) = false)
    (hres : reservedUsernames.contains (pyLower (pyStrip v)) = false)
    (hdis : 2 ≤ distinctCount (pyStrip v) ∨ (pyStrip v).length ≤ 3) :
    validate_username v = .ok (pyLower (pyStrip v)) := by
  simp only [validate_username]
  rw [if_neg (by simp [hne]),
      if_neg (by omega),
      if_neg (by omega),
      if_neg (by omega),
      if_neg (by simp [hcs]),
      if_neg (by simp [hsa]),
      if_neg (by simp [heh]),
      if_neg (by rw [hres]; simp),
      if_neg (by simp only [Bool.and_eq_true, decide_eq_true_eq, not_and, Nat.not_lt]; omega)]

/-- C6 counterexample: the validator accepts "aAaA" and stores "aaaa", but
re-running the validator on the stored form "aaaa" rejects it, because
lowercasing collapsed the distinct-character count below two while the
length stayed above three; so validation is not idempotent on accepted
outputs. -/
theorem username_revalidation_rejects_stored_form :
    validate_username (strOf "aAaA") = .ok (strOf "aaaa")
    ∧ validate_username (strOf "aaaa") = .error "Username cannot be repetitive characters" := by
  decide

/-- C6 amended: every accepted username is stored in a fully lowercase form
(a fixed point of lowercasing), and re-validating the stored form accepts it
and returns it unchanged provided the stored form still has at least two
distinct characters or has length at most three; the input "aAaA", whose
stored form "aaaa" violates that proviso, is re-rejected as repetitive. -/
theorem username_stored_lowercase_and_conditionally_idempotent (v w : Str)
    (h : validate_username v = .ok w)
    (hdist : 2 ≤ distinctCount w ∨ w.length ≤ 3) :
    pyLower w = w ∧ validate_username w = .ok w := by
  obtain ⟨hw, h3, h50, hcs, hsa, heh, hres, _hd⟩ := validate_username_ok_elim h
  have hlow : pyLower w = w := by rw [hw]; exact pyLower_idem _
  have hcsAll : ∀ c ∈ pyStrip v, isUsernameChar c = true := by
    intro c hc
    exact (List.all_eq_true.mp ((Bool.and_eq_true _ _).mp hcs).2) c hc
  have hwAll : ∀ c ∈ w, isUsernameChar c = true := by
    intro c hc
    rw [hw] at hc
    obtain ⟨a, ha, rfl⟩ := List.mem_map.mp hc
    exact isUsernameChar_lowerCode (hcsAll a ha)
  have hstrip : pyStrip w = w :=
    pyStrip_eq_self fun c hc => isSpace_eq_false_of_isUsernameChar (hwAll c hc)
  have hlen : w.length = (pyStrip v).length := by rw [hw]; exact List.length_map _ _
  have hne : w.isEmpty = false := by
    cases hww : w with
    | nil => exfalso; rw [hww] at hlen; simp at hlen; omega
    | cons a t => rfl
  have hcs2 : matchesUsernameCharset w = true := by
    unfold matchesUsernameCharset
    rw [hne, List.all_eq_true.mpr hwAll]
    rfl
  have hsa2 : startsAlnum w = true := by
    rw [hw]
    cases hsv : pyStrip v with
    | nil => rw [hsv] at h3; simp at h3
    | cons a t =>
      rw [hsv] at hsa
      simp only [pyLower, List.map_cons, startsAlnum] at *
      exact isAlnumCode_lowerCode hsa
  have heh2 : endsUnderscoreOrHyphen w = false := by
    rw [hw]
    unfold endsUnderscoreOrHyphen at heh ⊢
    rw [pyLower, ← List.map_reverse]
    cases hrv : (pyStrip v).reverse with
    | nil => rfl
    | cons a t =>
      rw [hrv] at heh
      simp only [Bool.or_eq_false_iff, beq_eq_false_iff_ne] at heh
      simp only [List.map_cons, Bool.or_eq_false_iff, beq_eq_false_iff_ne, Ne,
        lowerCode_eq_95_iff, lowerCode_eq_45_iff]
      exact heh
  have hres2 : reservedUsernames.contains (pyLower w) = false := by
    rw [hlow, hw]
    exact hres
  have hfinal := validate_username_ok_intro hne
    (by rw [hstrip]; omega)
    (by rw [hstrip]; omega)
    (by rw [hstrip]; exact hcs2)
    (by rw [hstrip]; exact hsa2)
    (by rw [hstrip]; exact heh2)
    (by rw [hstrip]; exact hres2)
    (by rw [hstrip]; exact hdist)
  rw [hstrip, hlow] at hfinal
  exact ⟨hlow, hfinal⟩

theorem username_stored_lowercase_witness :
    pyLower (strOf "aabb") = strOf "aabb"
    ∧ validate_username (strOf "aabb") = .ok (strOf "aabb") :=
  username_stored_lowercase_and_conditionally_idempotent (strOf "aAbB") (strOf "aabb")
    (by decide) (by decide)

end Taskify
